import Mathlib

/-!
# testifylint `float-compare` checker

A shallow embedding of
`vendor/github.com/Antonboom/testifylint/internal/checkers/float_compare.go`
together with the small parts of `go/token`, `go/ast`, `go/types`, `fmt` and
`golang.org/x/tools/go/analysis` that the checker touches.

* Go packages become Lean namespaces (`token`, `ast`, `types`, `analysis`, `fmt`).
* A Go slice index that may be out of range is `index`, which returns a
  `Panic` in `Except` when the index is out of range, so that the guards of
  `Check` are part of what is proved.
* `pass.TypesInfo.TypeOf` is the type environment, a function from expression
  nodes to an optional type (`none` is Go's nil `types.Type`).
-/

/-! ## go/token -/

namespace token

/-- Source position, `token.Pos`. -/
abbrev Pos := Nat

/-- The tokens of `go/token` that can occur as the kind of a literal or as the
operator of a unary or binary expression. -/
inductive Token where
  | ILLEGAL
  | INT | FLOAT | IMAG | CHAR | STRING
  | ADD | SUB | MUL | QUO | REM
  | AND | OR | XOR | SHL | SHR | AND_NOT
  | LAND | LOR | ARROW
  | EQL | LSS | GTR | NOT
  | NEQ | LEQ | GEQ
  deriving DecidableEq, Repr

end token

/-! ## go/ast -/

namespace ast

/-- Expression nodes, `ast.Expr`. Each node keeps the position fields of the Go
struct, so two occurrences of the same text are different nodes. -/
inductive Expr where
  | BadExpr (From To : token.Pos)
  | Ident (NamePos : token.Pos) (Name : String)
  | BasicLit (ValuePos : token.Pos) (Kind : token.Token) (Value : String)
  | ParenExpr (Lparen : token.Pos) (X : Expr) (Rparen : token.Pos)
  | SelectorExpr (X : Expr) (SelPos : token.Pos) (Sel : String)
  | IndexExpr (X : Expr) (Lbrack : token.Pos) (Index : Expr) (Rbrack : token.Pos)
  | StarExpr (Star : token.Pos) (X : Expr)
  | UnaryExpr (OpPos : token.Pos) (Op : token.Token) (X : Expr)
  | BinaryExpr (X : Expr) (OpPos : token.Pos) (Op : token.Token) (Y : Expr)
  deriving DecidableEq, Repr

end ast

/-! ## go/types -/

namespace types

/-- Flags of `types.BasicInfo`, a bit set. -/
abbrev BasicInfo := Nat

def IsBoolean : BasicInfo := 1 <<< 0
def IsInteger : BasicInfo := 1 <<< 1
def IsUnsigned : BasicInfo := 1 <<< 2
def IsFloat : BasicInfo := 1 <<< 3
def IsComplex : BasicInfo := 1 <<< 4
def IsString : BasicInfo := 1 <<< 5
def IsUntyped : BasicInfo := 1 <<< 6

/-- The kinds of `types.Basic`, `types.BasicKind`. -/
inductive BasicKind where
  | Invalid
  | Bool
  | Int | Int8 | Int16 | Int32 | Int64
  | Uint | Uint8 | Uint16 | Uint32 | Uint64 | Uintptr
  | Float32 | Float64
  | Complex64 | Complex128
  | String
  | UnsafePointer
  | UntypedBool | UntypedInt | UntypedRune | UntypedFloat | UntypedComplex
  | UntypedString | UntypedNil
  deriving DecidableEq, Repr

/-- The info flags of a basic type, `(*types.Basic).Info`, as the table
`types.Typ` of the universe assigns them. -/
def BasicKind.Info : BasicKind → BasicInfo
  | .Invalid => 0
  | .Bool => IsBoolean
  | .Int | .Int8 | .Int16 | .Int32 | .Int64 => IsInteger
  | .Uint | .Uint8 | .Uint16 | .Uint32 | .Uint64 | .Uintptr => IsInteger ||| IsUnsigned
  | .Float32 | .Float64 => IsFloat
  | .Complex64 | .Complex128 => IsComplex
  | .String => IsString
  | .UnsafePointer => 0
  | .UntypedBool => IsBoolean ||| IsUntyped
  | .UntypedInt | .UntypedRune => IsInteger ||| IsUntyped
  | .UntypedFloat => IsFloat ||| IsUntyped
  | .UntypedComplex => IsComplex ||| IsUntyped
  | .UntypedString => IsString ||| IsUntyped
  | .UntypedNil => IsUntyped

/-- Types, `types.Type`. A named (defined) type carries the type of its
declaration; struct, interface and signature types carry an identifier only. -/
inductive GoType where
  | Basic (kind : BasicKind)
  | Named (name : String) (decl : GoType)
  | Pointer (elem : GoType)
  | Slice (elem : GoType)
  | Array (len : Nat) (elem : GoType)
  | Map (key elem : GoType)
  | Chan (elem : GoType)
  | Struct (id : Nat)
  | Interface (id : Nat)
  | Signature (id : Nat)
  deriving DecidableEq, Repr

/-- The underlying type, `Type.Underlying`: a named type resolves through its
declaration (never yielding a named type), every other type is its own
underlying type. -/
def GoType.Underlying : GoType → GoType
  | .Named _ decl => decl.Underlying
  | t => t

/-- Type information of a package, `types.Info`, reduced to `TypeOf`: the type
of an expression node, `none` when the node has no recorded type. -/
structure TypesInfo where
  TypeOf : ast.Expr → Option GoType

end types

/-! ## golang.org/x/tools/go/analysis -/

namespace analysis

/-- The part of `analysis.Pass` the checker reads. -/
structure Pass where
  TypesInfo : types.TypesInfo

/-- A suggested fix, `analysis.SuggestedFix`. -/
structure SuggestedFix where
  Message : String
  deriving DecidableEq, Repr

/-- A diagnostic, `analysis.Diagnostic`. -/
structure Diagnostic where
  Pos : token.Pos
  End : token.Pos
  Category : String
  Message : String
  SuggestedFixes : List SuggestedFix
  deriving DecidableEq, Repr

end analysis

/-! ## fmt -/

/-- Run-time failure of a Go operation. -/
inductive Panic where
  | indexOutOfRange (index len : Nat)
  deriving DecidableEq, Repr

/-- Go slice indexing `xs[i]`: a run-time panic when `i` is out of range. -/
def index {α : Type} (xs : List α) (i : Nat) : Except Panic α :=
  match xs.get? i with
  | some x => .ok x
  | none => .error (.indexOutOfRange i xs.length)

namespace fmt

/-- Text that `Sprintf` appends for operands no verb consumed. -/
def extra : List (List Char) → List Char
  | [] => []
  | a :: rest =>
    "%!(EXTRA ".data ++ ("string=".data ++ a) ++
      (rest.map (fun b => ", string=".data ++ b)).flatten ++ ")".data

/-- Formatting over characters with string operands: `%s` is replaced by the
next operand (`%!s(MISSING)` when none is left), `%%` is a percent sign,
any other character is copied. -/
def sprintfChars : List Char → List (List Char) → List Char
  | '%' :: 's' :: rest, a :: args => a ++ sprintfChars rest args
  | '%' :: 's' :: rest, [] => "%!s(MISSING)".data ++ sprintfChars rest []
  | '%' :: '%' :: rest, args => '%' :: sprintfChars rest args
  | c :: rest, args => c :: sprintfChars rest args
  | [], args => extra args

/-- The function `fmt.Sprintf` on string operands, for formats built from
literal text, `%s` and `%%`. -/
def Sprintf (format : String) (args : List String) : String :=
  String.mk (sprintfChars format.data (args.map String.data))

end fmt

/-! ## checkers -/

namespace checkers

/-- Source range of a node, `analysis.Range`. -/
structure Range where
  Pos : token.Pos
  End : token.Pos
  deriving DecidableEq, Repr

/-- Function part of a call descriptor, `FnMeta`. -/
structure FnMeta where
  Name : String
  NameFTrimmed : String
  IsFmt : Bool
  deriving DecidableEq, Repr

/-- Call descriptor, `CallMeta`: the fields `Check` reads, and the range of the
call, which the descriptor hands to the diagnostic. -/
structure CallMeta where
  Range : Range
  SelectorXStr : String
  Fn : FnMeta
  Args : List ast.Expr
  deriving DecidableEq, Repr

/-- Modelled from the spec: the helper `newDiagnostic` is not part of
`float_compare.go`. A diagnostic is the rule name, the message, the source
anchor passed through from the call descriptor, and the suggested fix when one
is given. -/
def newDiagnostic (checker : String) (call : CallMeta) (msg : String)
    (fix : Option analysis.SuggestedFix) : analysis.Diagnostic :=
  { Pos := call.Range.Pos
    End := call.Range.End
    Category := checker
    Message := msg
    SuggestedFixes := fix.toList }

/-- The checker `FloatCompare`, an empty struct. -/
structure FloatCompare where
  deriving DecidableEq, Repr

def NewFloatCompare : FloatCompare := {}

def FloatCompare.Name (_checker : FloatCompare) : String := "float-compare"

def isFloat (pass : analysis.Pass) (expr : ast.Expr) : Bool :=
  match pass.TypesInfo.TypeOf expr with
  | none => false
  | some t =>
    match t.Underlying with
    | .Basic bt => decide (bt.Info &&& types.IsFloat > 0)
    | _ => false

def isFloatCompare (p : analysis.Pass) (e : ast.Expr) (op : token.Token) : Bool :=
  match e with
  | .BinaryExpr X _ Op Y => decide (Op = op) && (isFloat p X || isFloat p Y)
  | _ => false

/-- The closure `invalid` of `Check`. The operators `&&` and `||` of Go
evaluate their right operand only when needed, so an index expression is
reached only past the guards written before it. -/
def FloatCompare.invalid (pass : analysis.Pass) (call : CallMeta) : Except Panic Bool :=
  if call.Fn.NameFTrimmed = "Equal" ∨ call.Fn.NameFTrimmed = "EqualValues"
      ∨ call.Fn.NameFTrimmed = "Exactly" then
    if call.Args.length > 1 then do
      let a0 ← index call.Args 0
      if isFloat pass a0 then
        pure true
      else do
        let a1 ← index call.Args 1
        pure (isFloat pass a1)
    else
      pure false
  else if call.Fn.NameFTrimmed = "True" then
    if call.Args.length > 0 then do
      let a0 ← index call.Args 0
      pure (isFloatCompare pass a0 token.Token.EQL)
    else
      pure false
  else if call.Fn.NameFTrimmed = "False" then
    if call.Args.length > 0 then do
      let a0 ← index call.Args 0
      pure (isFloatCompare pass a0 token.Token.NEQ)
    else
      pure false
  else
    pure false

/-- The format string `Check` selects. -/
def FloatCompare.format (call : CallMeta) : String :=
  if call.Fn.IsFmt then "use %s.InEpsilonf (or InDeltaf)" else "use %s.InEpsilon (or InDelta)"

/-- The diagnostic `Check` returns for an invalid call: the value of
`newDiagnostic(checker.Name(), call, fmt.Sprintf(format, call.SelectorXStr), nil)`. -/
def FloatCompare.diagnostic (checker : FloatCompare) (call : CallMeta) : analysis.Diagnostic :=
  newDiagnostic checker.Name call
    (fmt.Sprintf (FloatCompare.format call) [call.SelectorXStr]) none

/-- The method `FloatCompare.Check`: `none` is Go's nil diagnostic. -/
def FloatCompare.Check (checker : FloatCompare) (pass : analysis.Pass) (call : CallMeta) :
    Except Panic (Option analysis.Diagnostic) := do
  let invalid ← FloatCompare.invalid pass call
  if invalid then
    pure (some (checker.diagnostic call))
  else
    pure none

/-- The objects behind the two pointer arguments of `Check`. -/
structure Store where
  pass : analysis.Pass
  call : CallMeta

/-- The method `Check` as a step on the store. The body of `Check` reads
`call.Fn`, `call.Args`, `call.SelectorXStr` and `pass.TypesInfo` and assigns
only to its locals `invalid` and `format`, so the store is handed on as it was
received. -/
def FloatCompare.CheckStep (checker : FloatCompare) (s : Store) :
    Except Panic (Option analysis.Diagnostic × Store) := do
  let invalid ← FloatCompare.invalid s.pass s.call
  if invalid then
    pure (some (checker.diagnostic s.call), s)
  else
    pure (none, s)

/-- Two invocations of `Check` one after the other, the second on the store the
first one left: the two results and the final store. -/
def FloatCompare.CheckTwice (checker : FloatCompare) (s : Store) :
    Except Panic (Option analysis.Diagnostic × Option analysis.Diagnostic × Store) := do
  let r1 ← checker.CheckStep s
  let r2 ← checker.CheckStep r1.2
  pure (r1.1, r2.1, r2.2)

end checkers

/-! ## Example inputs -/

namespace examples

open checkers

/-- A type environment: float literals are untyped floats, integer literals
untyped integers, `result` is an `int`, `price` has the defined type `Price`
whose declaration is `float64`; no other node has a type. -/
def pass : analysis.Pass :=
  { TypesInfo :=
      { TypeOf := fun e =>
          match e with
          | .BasicLit _ .FLOAT _ => some (.Basic .UntypedFloat)
          | .BasicLit _ .INT _ => some (.Basic .UntypedInt)
          | .Ident _ "result" => some (.Basic .Int)
          | .Ident _ "price" => some (.Named "Price" (.Basic .Float64))
          | _ => none } }

/-- A type environment in which no node has a type. -/
def passNoTypes : analysis.Pass :=
  { TypesInfo := { TypeOf := fun _ => none } }

def lit4242 : ast.Expr := .BasicLit 20 .FLOAT "42.42"

def lit42 : ast.Expr := .BasicLit 20 .INT "42"

def result : ast.Expr := .Ident 30 "result"

def price : ast.Expr := .Ident 30 "price"

/-- The comparison `result == 42.42`. -/
def resultEql : ast.Expr := .BinaryExpr (.Ident 14 "result") 21 .EQL (.BasicLit 24 .FLOAT "42.42")

/-- The comparison `result != 42.42`. -/
def resultNeq : ast.Expr := .BinaryExpr (.Ident 14 "result") 21 .NEQ (.BasicLit 24 .FLOAT "42.42")

/-- The comparison `result > 42.42`. -/
def resultGtr : ast.Expr := .BinaryExpr (.Ident 14 "result") 21 .GTR (.BasicLit 24 .FLOAT "42.42")

/-- The call `assert.Equal(t, 42.42, result)`. -/
def equalFloat : CallMeta :=
  { Range := ⟨10, 40⟩, SelectorXStr := "assert", Fn := ⟨"Equal", "Equal", false⟩,
    Args := [lit4242, result] }

/-- The call `assert.Equal(t, 42, result)`. -/
def equalInt : CallMeta :=
  { Range := ⟨10, 40⟩, SelectorXStr := "assert", Fn := ⟨"Equal", "Equal", false⟩,
    Args := [lit42, result] }

/-- The call `assert.Equal(t, 42.42)`, one argument short. -/
def equalShort : CallMeta :=
  { Range := ⟨10, 40⟩, SelectorXStr := "assert", Fn := ⟨"Equal", "Equal", false⟩,
    Args := [lit4242] }

/-- The call `assert.NotEqual(t, 42.42, result)`. -/
def notEqualFloat : CallMeta :=
  { Range := ⟨10, 40⟩, SelectorXStr := "assert", Fn := ⟨"NotEqual", "NotEqual", false⟩,
    Args := [lit4242, result] }

/-- The call `assert.True(t, result == 42.42)`. -/
def trueEql : CallMeta :=
  { Range := ⟨1, 31⟩, SelectorXStr := "assert", Fn := ⟨"True", "True", false⟩,
    Args := [resultEql] }

/-- The call `assert.True(t, result > 42.42)`. -/
def trueGtr : CallMeta :=
  { Range := ⟨1, 31⟩, SelectorXStr := "assert", Fn := ⟨"True", "True", false⟩,
    Args := [resultGtr] }

/-- The call `assert.False(t, result != 42.42)`. -/
def falseNeq : CallMeta :=
  { Range := ⟨1, 31⟩, SelectorXStr := "assert", Fn := ⟨"False", "False", false⟩,
    Args := [resultNeq] }

/-- The call `assert.False(t, result == 42.42)`. -/
def falseEql : CallMeta :=
  { Range := ⟨1, 31⟩, SelectorXStr := "assert", Fn := ⟨"False", "False", false⟩,
    Args := [resultEql] }

/-- The call `require.Equalf(t, 42.42, result, "msg")`, a formatting variant. -/
def requireEqualf : CallMeta :=
  { Range := ⟨10, 47⟩, SelectorXStr := "require", Fn := ⟨"Equalf", "Equal", true⟩,
    Args := [lit4242, result, .BasicLit 40 .STRING "\"msg\""] }

/-- The call `require.Equalf(t, 42.42, result)`: the arguments of `equalFloat`
under another selector and as a formatting variant. -/
def requireEqualfSame : CallMeta :=
  { Range := ⟨10, 40⟩, SelectorXStr := "require", Fn := ⟨"Equalf", "Equal", true⟩,
    Args := [lit4242, result] }

/-- The call `assert.Equal(t, 42.42, result, 0.5)`: the call `equalFloat` with
a floating-point argument added, which moves the end of the call. -/
def equalFloatExtra : CallMeta :=
  { Range := ⟨10, 45⟩, SelectorXStr := "assert", Fn := ⟨"Equal", "Equal", false⟩,
    Args := [lit4242, result, .BasicLit 41 .FLOAT "0.5"] }

/-- The call `assert.Equal(t, result, 42.42)`: the call `equalFloat` with its
two arguments swapped. -/
def equalFloatSwapped : CallMeta :=
  { Range := ⟨10, 40⟩, SelectorXStr := "assert", Fn := ⟨"Equal", "Equal", false⟩,
    Args := [result, lit4242] }

/-- The parenthesised comparison `(result == 42.42)`. -/
def parenEql : ast.Expr := .ParenExpr 13 resultEql 30

/-- The call `assert.True(t, (result == 42.42))`. -/
def trueParen : CallMeta :=
  { Range := ⟨1, 33⟩, SelectorXStr := "assert", Fn := ⟨"True", "True", false⟩,
    Args := [parenEql] }

/-- A type environment without floating-point values: `ptr` is a `*float64`,
`z` a `complex128`, `n` an `int`, `s` a `string`; no other node has a type. -/
def passNonFloat : analysis.Pass :=
  { TypesInfo :=
      { TypeOf := fun e =>
          match e with
          | .Ident _ "ptr" => some (.Pointer (.Basic .Float64))
          | .Ident _ "z" => some (.Basic .Complex128)
          | .Ident _ "n" => some (.Basic .Int)
          | .Ident _ "s" => some (.Basic .String)
          | _ => none } }

def ptr : ast.Expr := .Ident 20 "ptr"

def z : ast.Expr := .Ident 25 "z"

/-- The call `assert.Equal(t, ptr, z)`. -/
def equalPtrComplex : CallMeta :=
  { Range := ⟨10, 27⟩, SelectorXStr := "assert", Fn := ⟨"Equal", "Equal", false⟩,
    Args := [ptr, z] }

end examples

open checkers

/-! ## Auxiliary facts -/

theorem index_cons_zero {α : Type} (a : α) (xs : List α) : index (a :: xs) 0 = .ok a := rfl

theorem index_cons_one {α : Type} (a b : α) (xs : List α) : index (a :: b :: xs) 1 = .ok b := rfl

theorem Sprintf_InEpsilon (s : String) :
    fmt.Sprintf "use %s.InEpsilon (or InDelta)" [s] = "use " ++ s ++ ".InEpsilon (or InDelta)" := by
  apply String.ext
  simp [fmt.Sprintf, fmt.sprintfChars, fmt.extra]

theorem Sprintf_InEpsilonf (s : String) :
    fmt.Sprintf "use %s.InEpsilonf (or InDeltaf)" [s]
      = "use " ++ s ++ ".InEpsilonf (or InDeltaf)" := by
  apply String.ext
  simp [fmt.Sprintf, fmt.sprintfChars, fmt.extra]

theorem Check_of_invalid (checker : FloatCompare) (pass : analysis.Pass) (call : CallMeta)
    (b : Bool) (h : FloatCompare.invalid pass call = .ok b) :
    checker.Check pass call = .ok (if b then some (checker.diagnostic call) else none) := by
  unfold FloatCompare.Check
  rw [h]
  cases b <;> rfl

theorem invalid_equal_family (pass : analysis.Pass) (call : CallMeta)
    (a0 a1 : ast.Expr) (rest : List ast.Expr)
    (hname : call.Fn.NameFTrimmed = "Equal" ∨ call.Fn.NameFTrimmed = "EqualValues"
      ∨ call.Fn.NameFTrimmed = "Exactly")
    (hargs : call.Args = a0 :: a1 :: rest) :
    FloatCompare.invalid pass call = .ok (isFloat pass a0 || isFloat pass a1) := by
  unfold FloatCompare.invalid
  rw [if_pos hname, hargs, if_pos (by simp), index_cons_zero, index_cons_one]
  cases h : isFloat pass a0 <;> simp [bind, Except.bind, pure, Except.pure, h]

theorem invalid_equal_family_short (pass : analysis.Pass) (call : CallMeta)
    (hname : call.Fn.NameFTrimmed = "Equal" ∨ call.Fn.NameFTrimmed = "EqualValues"
      ∨ call.Fn.NameFTrimmed = "Exactly")
    (hlen : call.Args.length ≤ 1) :
    FloatCompare.invalid pass call = .ok false := by
  unfold FloatCompare.invalid
  rw [if_pos hname, if_neg (by omega)]
  rfl

theorem not_equal_family_of_eq_True {s : String} (h : s = "True") :
    ¬ (s = "Equal" ∨ s = "EqualValues" ∨ s = "Exactly") := by
  subst h; decide

theorem not_equal_family_of_eq_False {s : String} (h : s = "False") :
    ¬ (s = "Equal" ∨ s = "EqualValues" ∨ s = "Exactly") := by
  subst h; decide

theorem invalid_True (pass : analysis.Pass) (call : CallMeta)
    (a0 : ast.Expr) (rest : List ast.Expr)
    (hname : call.Fn.NameFTrimmed = "True") (hargs : call.Args = a0 :: rest) :
    FloatCompare.invalid pass call = .ok (isFloatCompare pass a0 token.Token.EQL) := by
  unfold FloatCompare.invalid
  rw [if_neg (not_equal_family_of_eq_True hname), if_pos hname, hargs, if_pos (by simp),
    index_cons_zero]
  rfl

theorem invalid_False (pass : analysis.Pass) (call : CallMeta)
    (a0 : ast.Expr) (rest : List ast.Expr)
    (hname : call.Fn.NameFTrimmed = "False") (hargs : call.Args = a0 :: rest) :
    FloatCompare.invalid pass call = .ok (isFloatCompare pass a0 token.Token.NEQ) := by
  unfold FloatCompare.invalid
  rw [if_neg (not_equal_family_of_eq_False hname), if_neg (by rw [hname]; decide), if_pos hname,
    hargs, if_pos (by simp), index_cons_zero]
  rfl

theorem invalid_True_False_nil (pass : analysis.Pass) (call : CallMeta)
    (hname : call.Fn.NameFTrimmed = "True" ∨ call.Fn.NameFTrimmed = "False")
    (hargs : call.Args = []) :
    FloatCompare.invalid pass call = .ok false := by
  unfold FloatCompare.invalid
  rcases hname with h | h
  · rw [if_neg (not_equal_family_of_eq_True h), if_pos h, hargs, if_neg (by simp)]
    rfl
  · rw [if_neg (not_equal_family_of_eq_False h), if_neg (by rw [h]; decide), if_pos h, hargs,
      if_neg (by simp)]
    rfl

theorem invalid_other_name (pass : analysis.Pass) (call : CallMeta)
    (h1 : call.Fn.NameFTrimmed ≠ "Equal") (h2 : call.Fn.NameFTrimmed ≠ "EqualValues")
    (h3 : call.Fn.NameFTrimmed ≠ "Exactly") (h4 : call.Fn.NameFTrimmed ≠ "True")
    (h5 : call.Fn.NameFTrimmed ≠ "False") :
    FloatCompare.invalid pass call = .ok false := by
  unfold FloatCompare.invalid
  rw [if_neg (by simp [h1, h2, h3]), if_neg h4, if_neg h5]
  rfl

theorem isFloatCompare_iff (p : analysis.Pass) (e : ast.Expr) (op : token.Token) :
    isFloatCompare p e op = true ↔
      ∃ X OpPos Y, e = ast.Expr.BinaryExpr X OpPos op Y
        ∧ (isFloat p X = true ∨ isFloat p Y = true) := by
  cases e <;> simp [isFloatCompare]
  rename_i X OpPos Op Y
  constructor
  · rintro ⟨rfl, h⟩
    exact ⟨X, OpPos, Y, ⟨rfl, rfl, rfl, rfl⟩, h⟩
  · rintro ⟨X1, OpPos1, Y1, ⟨rfl, rfl, rfl, rfl⟩, h⟩
    exact ⟨rfl, h⟩

theorem isFloat_of_TypeOf_none (pass : analysis.Pass) (e : ast.Expr)
    (h : pass.TypesInfo.TypeOf e = none) : isFloat pass e = false := by
  unfold isFloat
  rw [h]

theorem isFloat_flag_iff (k : types.BasicKind) :
    decide (k.Info &&& types.IsFloat > 0) = true ↔ k.Info &&& types.IsFloat = types.IsFloat := by
  cases k <;> decide

/-- The closure `invalid` always returns, and returns true only along one of
the three rows of the decision table. -/
theorem invalid_cases (pass : analysis.Pass) (call : CallMeta) :
    FloatCompare.invalid pass call = .ok false ∨
    (FloatCompare.invalid pass call = .ok true ∧
      (((call.Fn.NameFTrimmed = "Equal" ∨ call.Fn.NameFTrimmed = "EqualValues"
            ∨ call.Fn.NameFTrimmed = "Exactly")
          ∧ ∃ a0 a1 rest, call.Args = a0 :: a1 :: rest
            ∧ (isFloat pass a0 = true ∨ isFloat pass a1 = true))
        ∨ (call.Fn.NameFTrimmed = "True"
          ∧ ∃ a0 rest, call.Args = a0 :: rest
            ∧ isFloatCompare pass a0 token.Token.EQL = true)
        ∨ (call.Fn.NameFTrimmed = "False"
          ∧ ∃ a0 rest, call.Args = a0 :: rest
            ∧ isFloatCompare pass a0 token.Token.NEQ = true))) := by
  by_cases h1 : call.Fn.NameFTrimmed = "Equal" ∨ call.Fn.NameFTrimmed = "EqualValues"
      ∨ call.Fn.NameFTrimmed = "Exactly"
  · match hA : call.Args with
    | [] => exact Or.inl (invalid_equal_family_short pass call h1 (by simp [hA]))
    | [_] => exact Or.inl (invalid_equal_family_short pass call h1 (by simp [hA]))
    | a0 :: a1 :: rest =>
      have hinv := invalid_equal_family pass call a0 a1 rest h1 hA
      cases hb : (isFloat pass a0 || isFloat pass a1)
      · rw [hb] at hinv
        exact Or.inl hinv
      · rw [hb] at hinv
        refine Or.inr ⟨hinv, Or.inl ⟨h1, a0, a1, rest, rfl, ?_⟩⟩
        simpa using hb
  · by_cases h4 : call.Fn.NameFTrimmed = "True"
    · match hA : call.Args with
      | [] => exact Or.inl (invalid_True_False_nil pass call (Or.inl h4) hA)
      | a0 :: rest =>
        have hinv := invalid_True pass call a0 rest h4 hA
        cases hb : isFloatCompare pass a0 token.Token.EQL
        · rw [hb] at hinv
          exact Or.inl hinv
        · rw [hb] at hinv
          exact Or.inr ⟨hinv, Or.inr (Or.inl ⟨h4, a0, rest, rfl, hb⟩)⟩
    · by_cases h5 : call.Fn.NameFTrimmed = "False"
      · match hA : call.Args with
        | [] => exact Or.inl (invalid_True_False_nil pass call (Or.inr h5) hA)
        | a0 :: rest =>
          have hinv := invalid_False pass call a0 rest h5 hA
          cases hb : isFloatCompare pass a0 token.Token.NEQ
          · rw [hb] at hinv
            exact Or.inl hinv
          · rw [hb] at hinv
            exact Or.inr ⟨hinv, Or.inr (Or.inr ⟨h5, a0, rest, rfl, hb⟩)⟩
      · refine Or.inl (invalid_other_name pass call ?_ ?_ ?_ h4 h5)
        · exact fun h => h1 (Or.inl h)
        · exact fun h => h1 (Or.inr (Or.inl h))
        · exact fun h => h1 (Or.inr (Or.inr h))

theorem Check_some_iff (checker : FloatCompare) (pass : analysis.Pass) (call : CallMeta)
    (b : Bool) (h : FloatCompare.invalid pass call = .ok b) :
    ((∃ d, checker.Check pass call = .ok (some d)) ↔ b = true)
      ∧ (checker.Check pass call = .ok none ↔ b = false) := by
  rw [Check_of_invalid checker pass call b h]
  cases b <;> simp

theorem Check_some_eq (checker : FloatCompare) (pass : analysis.Pass) (call : CallMeta)
    (d : analysis.Diagnostic) (h : checker.Check pass call = .ok (some d)) :
    d = checker.diagnostic call := by
  rcases invalid_cases pass call with h0 | ⟨h1, _⟩
  · rw [Check_of_invalid checker pass call false h0] at h
    simp at h
  · rw [Check_of_invalid checker pass call true h1] at h
    simp at h
    exact h.symm

theorem isFloat_of_TypeOf_some (pass : analysis.Pass) (e : ast.Expr) (t : types.GoType)
    (h : pass.TypesInfo.TypeOf e = some t) :
    isFloat pass e =
      (match t.Underlying with
        | .Basic bt => decide (bt.Info &&& types.IsFloat > 0)
        | _ => false) := by
  unfold isFloat
  rw [h]

theorem isFloat_of_basic (pass : analysis.Pass) (e : ast.Expr) (t : types.GoType)
    (k : types.BasicKind) (hT : pass.TypesInfo.TypeOf e = some t)
    (hU : t.Underlying = types.GoType.Basic k) :
    isFloat pass e = decide (k.Info &&& types.IsFloat > 0) := by
  rw [isFloat_of_TypeOf_some pass e t hT, hU]

theorem isFloat_of_not_basic (pass : analysis.Pass) (e : ast.Expr) (t : types.GoType)
    (hT : pass.TypesInfo.TypeOf e = some t)
    (hU : ∀ k, t.Underlying ≠ types.GoType.Basic k) :
    isFloat pass e = false := by
  rw [isFloat_of_TypeOf_some pass e t hT]
  split
  · rename_i bt hbt
    exact absurd hbt (hU bt)
  · rfl

/-! ## Evaluation at the calls of the doc comment of `FloatCompare` -/

theorem eval_equalFloat :
    NewFloatCompare.Check examples.pass examples.equalFloat
      = .ok (some ⟨10, 40, "float-compare", "use assert.InEpsilon (or InDelta)", []⟩) := rfl

theorem eval_equalInt :
    NewFloatCompare.Check examples.pass examples.equalInt = .ok none := rfl

theorem eval_trueEql :
    NewFloatCompare.Check examples.pass examples.trueEql
      = .ok (some ⟨1, 31, "float-compare", "use assert.InEpsilon (or InDelta)", []⟩) := rfl

theorem eval_trueGtr :
    NewFloatCompare.Check examples.pass examples.trueGtr = .ok none := rfl

theorem eval_falseNeq :
    NewFloatCompare.Check examples.pass examples.falseNeq
      = .ok (some ⟨1, 31, "float-compare", "use assert.InEpsilon (or InDelta)", []⟩) := rfl

theorem eval_falseEql :
    NewFloatCompare.Check examples.pass examples.falseEql = .ok none := rfl

theorem eval_requireEqualf :
    NewFloatCompare.Check examples.pass examples.requireEqualf
      = .ok (some ⟨10, 47, "float-compare", "use require.InEpsilonf (or InDeltaf)", []⟩) := rfl

/-! ## The decision table of `Check` -/

/-- Claim C1: for a call whose trimmed function name is Equal, EqualValues or
Exactly and which has at least two arguments, `Check` returns a diagnostic if
and only if `isFloat` holds of argument 0 or of argument 1, and returns no
diagnostic (and does not fail) if and only if it holds of neither. -/
theorem Check_equal_family_iff (checker : FloatCompare) (pass : analysis.Pass)
    (call : CallMeta) (a0 a1 : ast.Expr) (rest : List ast.Expr)
    (hname : call.Fn.NameFTrimmed = "Equal" ∨ call.Fn.NameFTrimmed = "EqualValues"
      ∨ call.Fn.NameFTrimmed = "Exactly")
    (hargs : call.Args = a0 :: a1 :: rest) :
    ((∃ d, checker.Check pass call = .ok (some d))
        ↔ (isFloat pass a0 = true ∨ isFloat pass a1 = true))
      ∧ (checker.Check pass call = .ok none
        ↔ ¬ (isFloat pass a0 = true ∨ isFloat pass a1 = true)) := by
  have h := Check_some_iff checker pass call _ (invalid_equal_family pass call a0 a1 rest hname hargs)
  refine ⟨h.1.trans (by simp), h.2.trans (by simp)⟩

/-- The call `assert.Equal(t, 42.42, result)` with `result` an `int` satisfies
the hypotheses of `Check_equal_family_iff` and is flagged. -/
theorem Check_equal_family_iff_witness :
    (examples.equalFloat.Fn.NameFTrimmed = "Equal"
        ∨ examples.equalFloat.Fn.NameFTrimmed = "EqualValues"
        ∨ examples.equalFloat.Fn.NameFTrimmed = "Exactly")
      ∧ examples.equalFloat.Args = examples.lit4242 :: examples.result :: []
      ∧ (isFloat examples.pass examples.lit4242 = true
        ∨ isFloat examples.pass examples.result = true)
      ∧ ∃ d, NewFloatCompare.Check examples.pass examples.equalFloat = .ok (some d) :=
  ⟨Or.inl rfl, rfl, Or.inl (by decide),
    (Check_equal_family_iff NewFloatCompare examples.pass examples.equalFloat
      examples.lit4242 examples.result [] (Or.inl rfl) rfl).1.2 (Or.inl (by decide))⟩

/-- Claim C2: for a call whose trimmed function name is True and which has at
least one argument, `Check` returns a diagnostic if and only if argument 0 is a
binary expression with operator `==` one of whose operands is floating-point
per `isFloat`; otherwise it returns no diagnostic, in particular for a binary
expression with any other operator. -/
theorem Check_True_iff (checker : FloatCompare) (pass : analysis.Pass)
    (call : CallMeta) (a0 : ast.Expr) (rest : List ast.Expr)
    (hname : call.Fn.NameFTrimmed = "True")
    (hargs : call.Args = a0 :: rest) :
    ((∃ d, checker.Check pass call = .ok (some d))
        ↔ ∃ X OpPos Y, a0 = ast.Expr.BinaryExpr X OpPos token.Token.EQL Y
            ∧ (isFloat pass X = true ∨ isFloat pass Y = true))
      ∧ (checker.Check pass call = .ok none
        ↔ ¬ ∃ X OpPos Y, a0 = ast.Expr.BinaryExpr X OpPos token.Token.EQL Y
            ∧ (isFloat pass X = true ∨ isFloat pass Y = true))
      ∧ (∀ X OpPos Op Y, a0 = ast.Expr.BinaryExpr X OpPos Op Y → Op ≠ token.Token.EQL →
          checker.Check pass call = .ok none) := by
  have h := Check_some_iff checker pass call _ (invalid_True pass call a0 rest hname hargs)
  have hiff := isFloatCompare_iff pass a0 token.Token.EQL
  have h2 : checker.Check pass call = .ok none
      ↔ ¬ ∃ X OpPos Y, a0 = ast.Expr.BinaryExpr X OpPos token.Token.EQL Y
          ∧ (isFloat pass X = true ∨ isFloat pass Y = true) := by
    rw [h.2, ← hiff]
    simp
  refine ⟨h.1.trans hiff, h2, ?_⟩
  intro X OpPos Op Y ha hop
  rw [h2]
  rintro ⟨X1, OpPos1, Y1, he, _⟩
  rw [ha] at he
  injection he with _ _ hO _
  exact hop hO

/-- The call `assert.True(t, result == 42.42)` satisfies the hypotheses of
`Check_True_iff` and is flagged. -/
theorem Check_True_iff_witness :
    examples.trueEql.Fn.NameFTrimmed = "True"
      ∧ examples.trueEql.Args = examples.resultEql :: []
      ∧ ∃ d, NewFloatCompare.Check examples.pass examples.trueEql = .ok (some d) :=
  ⟨rfl, rfl,
    (Check_True_iff NewFloatCompare examples.pass examples.trueEql examples.resultEql []
      rfl rfl).1.2 ⟨_, _, _, rfl, Or.inr (by decide)⟩⟩

/-- Claim C3: for a call whose trimmed function name is False and which has at
least one argument, `Check` returns a diagnostic if and only if argument 0 is a
binary expression with operator `!=` one of whose operands is floating-point
per `isFloat`; otherwise it returns no diagnostic, in particular for an `==`
comparison. -/
theorem Check_False_iff (checker : FloatCompare) (pass : analysis.Pass)
    (call : CallMeta) (a0 : ast.Expr) (rest : List ast.Expr)
    (hname : call.Fn.NameFTrimmed = "False")
    (hargs : call.Args = a0 :: rest) :
    ((∃ d, checker.Check pass call = .ok (some d))
        ↔ ∃ X OpPos Y, a0 = ast.Expr.BinaryExpr X OpPos token.Token.NEQ Y
            ∧ (isFloat pass X = true ∨ isFloat pass Y = true))
      ∧ (checker.Check pass call = .ok none
        ↔ ¬ ∃ X OpPos Y, a0 = ast.Expr.BinaryExpr X OpPos token.Token.NEQ Y
            ∧ (isFloat pass X = true ∨ isFloat pass Y = true))
      ∧ (∀ X OpPos Y, a0 = ast.Expr.BinaryExpr X OpPos token.Token.EQL Y →
          checker.Check pass call = .ok none) := by
  have h := Check_some_iff checker pass call _ (invalid_False pass call a0 rest hname hargs)
  have hiff := isFloatCompare_iff pass a0 token.Token.NEQ
  have h2 : checker.Check pass call = .ok none
      ↔ ¬ ∃ X OpPos Y, a0 = ast.Expr.BinaryExpr X OpPos token.Token.NEQ Y
          ∧ (isFloat pass X = true ∨ isFloat pass Y = true) := by
    rw [h.2, ← hiff]
    simp
  refine ⟨h.1.trans hiff, h2, ?_⟩
  intro X OpPos Y ha
  rw [h2]
  rintro ⟨X1, OpPos1, Y1, he, _⟩
  rw [ha] at he
  injection he with _ _ hO _
  exact absurd hO (by decide)

/-- The call `assert.False(t, result == 42.42)` satisfies the hypotheses of
`Check_False_iff` and is not flagged. -/
theorem Check_False_iff_witness :
    examples.falseEql.Fn.NameFTrimmed = "False"
      ∧ examples.falseEql.Args = examples.resultEql :: []
      ∧ NewFloatCompare.Check examples.pass examples.falseEql = .ok none :=
  ⟨rfl, rfl,
    (Check_False_iff NewFloatCompare examples.pass examples.falseEql examples.resultEql []
      rfl rfl).2.2 _ _ _ rfl⟩

/-- Claim C4: whenever `Check` returns a diagnostic for a call with selector
text `s`, its message is `"use " ++ s ++ ".InEpsilon (or InDelta)"` when the
call is not a formatting variant and `"use " ++ s ++ ".InEpsilonf (or InDeltaf)"`
when it is, whatever the function name and the arguments are. -/
theorem Check_message (checker : FloatCompare) (pass : analysis.Pass) (call : CallMeta)
    (d : analysis.Diagnostic) (h : checker.Check pass call = .ok (some d)) :
    (call.Fn.IsFmt = false →
        d.Message = "use " ++ call.SelectorXStr ++ ".InEpsilon (or InDelta)")
      ∧ (call.Fn.IsFmt = true →
        d.Message = "use " ++ call.SelectorXStr ++ ".InEpsilonf (or InDeltaf)")
      ∧ (call.Fn.IsFmt = false → call.SelectorXStr = "assert" →
        d.Message = "use assert.InEpsilon (or InDelta)")
      ∧ (call.Fn.IsFmt = true → call.SelectorXStr = "require" →
        d.Message = "use require.InEpsilonf (or InDeltaf)") := by
  have hd := Check_some_eq checker pass call d h
  have hm : d.Message = fmt.Sprintf (FloatCompare.format call) [call.SelectorXStr] := by
    rw [hd]
    rfl
  have h1 : call.Fn.IsFmt = false →
      d.Message = "use " ++ call.SelectorXStr ++ ".InEpsilon (or InDelta)" := by
    intro hf
    rw [hm, FloatCompare.format, hf]
    exact Sprintf_InEpsilon _
  have h2 : call.Fn.IsFmt = true →
      d.Message = "use " ++ call.SelectorXStr ++ ".InEpsilonf (or InDeltaf)" := by
    intro hf
    rw [hm, FloatCompare.format, hf]
    exact Sprintf_InEpsilonf _
  refine ⟨h1, h2, ?_, ?_⟩
  · intro hf hs
    rw [h1 hf, hs]
    decide
  · intro hf hs
    rw [h2 hf, hs]
    decide

/-- The formatting call `require.Equalf(t, 42.42, result, "msg")` returns a
diagnostic, whose message is the one `Check_message` gives. -/
theorem Check_message_witness :
    NewFloatCompare.Check examples.pass examples.requireEqualf
        = .ok (some (NewFloatCompare.diagnostic examples.requireEqualf))
      ∧ (NewFloatCompare.diagnostic examples.requireEqualf).Message
        = "use require.InEpsilonf (or InDeltaf)" :=
  ⟨rfl, (Check_message NewFloatCompare examples.pass examples.requireEqualf
      (NewFloatCompare.diagnostic examples.requireEqualf) rfl).2.2.2 rfl rfl⟩

/-- Claim C5: for a call whose trimmed function name is none of "Equal",
"EqualValues", "Exactly", "True", "False" (compared as exact strings), `Check`
returns no diagnostic, whatever the arguments and their types are. -/
theorem Check_other_name (checker : FloatCompare) (pass : analysis.Pass) (call : CallMeta)
    (h1 : call.Fn.NameFTrimmed ≠ "Equal") (h2 : call.Fn.NameFTrimmed ≠ "EqualValues")
    (h3 : call.Fn.NameFTrimmed ≠ "Exactly") (h4 : call.Fn.NameFTrimmed ≠ "True")
    (h5 : call.Fn.NameFTrimmed ≠ "False") :
    checker.Check pass call = .ok none :=
  (Check_some_iff checker pass call false
    (invalid_other_name pass call h1 h2 h3 h4 h5)).2.2 rfl

/-- The call `assert.NotEqual(t, 42.42, result)`, with a floating-point
argument, satisfies the hypotheses of `Check_other_name`. -/
theorem Check_other_name_witness :
    examples.notEqualFloat.Fn.NameFTrimmed ≠ "Equal"
      ∧ examples.notEqualFloat.Fn.NameFTrimmed ≠ "EqualValues"
      ∧ examples.notEqualFloat.Fn.NameFTrimmed ≠ "Exactly"
      ∧ examples.notEqualFloat.Fn.NameFTrimmed ≠ "True"
      ∧ examples.notEqualFloat.Fn.NameFTrimmed ≠ "False"
      ∧ isFloat examples.pass examples.lit4242 = true
      ∧ NewFloatCompare.Check examples.pass examples.notEqualFloat = .ok none :=
  ⟨by decide, by decide, by decide, by decide, by decide, by decide,
    Check_other_name NewFloatCompare examples.pass examples.notEqualFloat
      (by decide) (by decide) (by decide) (by decide) (by decide)⟩

/-- Claim C6: a call with fewer arguments than its row of the decision table
requires never produces a diagnostic: a call named Equal, EqualValues or
Exactly with zero or one argument, and a call named True or False with no
argument, make `Check` return no diagnostic, whatever the type of the
arguments present. -/
theorem Check_too_few_args (checker : FloatCompare) (pass : analysis.Pass) (call : CallMeta)
    (h : ((call.Fn.NameFTrimmed = "Equal" ∨ call.Fn.NameFTrimmed = "EqualValues"
            ∨ call.Fn.NameFTrimmed = "Exactly") ∧ call.Args.length ≤ 1)
        ∨ ((call.Fn.NameFTrimmed = "True" ∨ call.Fn.NameFTrimmed = "False")
            ∧ call.Args.length = 0)) :
    checker.Check pass call = .ok none := by
  rcases h with ⟨hname, hlen⟩ | ⟨hname, hlen⟩
  · exact (Check_some_iff checker pass call false
      (invalid_equal_family_short pass call hname hlen)).2.2 rfl
  · exact (Check_some_iff checker pass call false
      (invalid_True_False_nil pass call hname (List.length_eq_zero.mp hlen))).2.2 rfl

/-- The call `assert.Equal(t, 42.42)`, whose single argument is floating-point,
satisfies the hypothesis of `Check_too_few_args`. -/
theorem Check_too_few_args_witness :
    examples.equalShort.Fn.NameFTrimmed = "Equal"
      ∧ examples.equalShort.Args.length ≤ 1
      ∧ isFloat examples.pass examples.lit4242 = true
      ∧ NewFloatCompare.Check examples.pass examples.equalShort = .ok none :=
  ⟨rfl, by decide, by decide,
    Check_too_few_args NewFloatCompare examples.pass examples.equalShort
      (Or.inl ⟨Or.inl rfl, by decide⟩)⟩

/-- Claim C7: when type resolution fails for every expression the rule inspects
(every argument of the call, and both operands of every argument that is a
binary expression), `Check` returns no diagnostic and does not fail, whatever
the function name and the number of arguments are. -/
theorem Check_unresolved_types (checker : FloatCompare) (pass : analysis.Pass)
    (call : CallMeta)
    (hargs : ∀ a ∈ call.Args, pass.TypesInfo.TypeOf a = none)
    (hops : ∀ a ∈ call.Args, ∀ X OpPos Op Y, a = ast.Expr.BinaryExpr X OpPos Op Y →
      pass.TypesInfo.TypeOf X = none ∧ pass.TypesInfo.TypeOf Y = none) :
    checker.Check pass call = .ok none := by
  have hcmp : ∀ a ∈ call.Args, ∀ op, isFloatCompare pass a op = false := by
    intro a ha op
    cases hb : isFloatCompare pass a op
    · rfl
    · obtain ⟨X, OpPos, Y, he, hf⟩ := (isFloatCompare_iff pass a op).mp hb
      have hn := hops a ha X OpPos op Y he
      rw [isFloat_of_TypeOf_none pass X hn.1, isFloat_of_TypeOf_none pass Y hn.2] at hf
      simp at hf
  rcases invalid_cases pass call with h0 | ⟨_, hrow⟩
  · exact (Check_some_iff checker pass call false h0).2.2 rfl
  · exfalso
    rcases hrow with ⟨_, a0, a1, rest, hA, hf⟩ | ⟨_, a0, rest, hA, hf⟩ | ⟨_, a0, rest, hA, hf⟩
    · rw [isFloat_of_TypeOf_none pass a0 (hargs a0 (by simp [hA])),
        isFloat_of_TypeOf_none pass a1 (hargs a1 (by simp [hA]))] at hf
      simp at hf
    · rw [hcmp a0 (by simp [hA])] at hf
      exact Bool.false_ne_true hf
    · rw [hcmp a0 (by simp [hA])] at hf
      exact Bool.false_ne_true hf

/-- In the type environment without any type, the call
`assert.Equal(t, 42.42, result)` satisfies the hypotheses of
`Check_unresolved_types`. -/
theorem Check_unresolved_types_witness :
    (∀ a ∈ examples.equalFloat.Args, examples.passNoTypes.TypesInfo.TypeOf a = none)
      ∧ NewFloatCompare.Check examples.passNoTypes examples.equalFloat = .ok none :=
  ⟨fun _ _ => rfl,
    Check_unresolved_types NewFloatCompare examples.passNoTypes examples.equalFloat
      (fun _ _ => rfl) (fun _ _ _ _ _ _ _ => ⟨rfl, rfl⟩)⟩

/-! ## The type classifier -/

/-- Claim C8: `isFloat` is true if and only if the type of the expression
resolves and its underlying type is a basic type whose info flags include the
floating-point flag; it is false when resolution fails, false when the
underlying type is not a basic type, and true for a named type declared as
`float32` or `float64`. -/
theorem isFloat_iff (pass : analysis.Pass) (e : ast.Expr) :
    (isFloat pass e = true ↔
        ∃ t, pass.TypesInfo.TypeOf e = some t
          ∧ ∃ k, t.Underlying = types.GoType.Basic k
            ∧ k.Info &&& types.IsFloat = types.IsFloat)
      ∧ (pass.TypesInfo.TypeOf e = none → isFloat pass e = false)
      ∧ (∀ t, pass.TypesInfo.TypeOf e = some t →
          (∀ k, t.Underlying ≠ types.GoType.Basic k) → isFloat pass e = false)
      ∧ (∀ name k, pass.TypesInfo.TypeOf e = some (types.GoType.Named name (types.GoType.Basic k)) →
          k = types.BasicKind.Float32 ∨ k = types.BasicKind.Float64 →
          isFloat pass e = true) := by
  have hmain : isFloat pass e = true ↔
      ∃ t, pass.TypesInfo.TypeOf e = some t
        ∧ ∃ k, t.Underlying = types.GoType.Basic k
          ∧ k.Info &&& types.IsFloat = types.IsFloat := by
    cases hT : pass.TypesInfo.TypeOf e with
    | none => simp [isFloat_of_TypeOf_none pass e hT]
    | some t =>
      by_cases hB : ∃ k, t.Underlying = types.GoType.Basic k
      · obtain ⟨k, hU⟩ := hB
        rw [isFloat_of_basic pass e t k hT hU, isFloat_flag_iff]
        constructor
        · intro h
          exact ⟨t, rfl, k, hU, h⟩
        · rintro ⟨t1, ht1, k1, hk1, hflag⟩
          cases ht1
          rw [hU] at hk1
          cases hk1
          exact hflag
      · rw [isFloat_of_not_basic pass e t hT (fun k hk => hB ⟨k, hk⟩)]
        constructor
        · intro h
          exact absurd h (by simp)
        · rintro ⟨t1, ht1, k1, hk1, _⟩
          cases ht1
          exact absurd ⟨k1, hk1⟩ hB
  refine ⟨hmain, isFloat_of_TypeOf_none pass e, ?_, ?_⟩
  · intro t hT hnb
    cases hb : isFloat pass e
    · rfl
    · obtain ⟨t1, ht1, k, hk, _⟩ := hmain.mp hb
      rw [hT] at ht1
      cases ht1
      exact absurd hk (hnb k)
  · intro name k hT hk
    refine hmain.mpr ⟨_, hT, k, rfl, ?_⟩
    rcases hk with rfl | rfl <;> decide

/-- The identifier `price`, of the named type `Price` declared as `float64`, is
classified as floating-point by `isFloat_iff`. -/
theorem isFloat_iff_witness :
    examples.pass.TypesInfo.TypeOf examples.price
        = some (types.GoType.Named "Price" (types.GoType.Basic types.BasicKind.Float64))
      ∧ isFloat examples.pass examples.price = true :=
  ⟨rfl, (isFloat_iff examples.pass examples.price).2.2.2 "Price" types.BasicKind.Float64
    rfl (Or.inr rfl)⟩

/-- Claim C9: `isFloatCompare` is true if and only if the expression is itself
a binary expression whose operator equals `op` and `isFloat` holds of its left
or right operand; it is false for every expression that is not a binary
expression, and false for every binary expression whose operator differs from
`op`, whatever the operand types. -/
theorem isFloatCompare_spec (p : analysis.Pass) (e : ast.Expr) (op : token.Token) :
    (isFloatCompare p e op = true ↔
        ∃ X OpPos Y, e = ast.Expr.BinaryExpr X OpPos op Y
          ∧ (isFloat p X = true ∨ isFloat p Y = true))
      ∧ ((∀ X OpPos Op Y, e ≠ ast.Expr.BinaryExpr X OpPos Op Y) →
          isFloatCompare p e op = false)
      ∧ (∀ X OpPos Op Y, e = ast.Expr.BinaryExpr X OpPos Op Y → Op ≠ op →
          isFloatCompare p e op = false) := by
  refine ⟨isFloatCompare_iff p e op, ?_, ?_⟩
  · intro hnb
    cases hb : isFloatCompare p e op
    · rfl
    · obtain ⟨X, OpPos, Y, he, _⟩ := (isFloatCompare_iff p e op).mp hb
      exact absurd he (hnb X OpPos op Y)
  · intro X OpPos Op Y he hop
    cases hb : isFloatCompare p e op
    · rfl
    · obtain ⟨X1, OpPos1, Y1, he1, _⟩ := (isFloatCompare_iff p e op).mp hb
      rw [he] at he1
      injection he1 with _ _ hO _
      exact absurd hO hop

/-- Asking for `!=` on the comparison `result == 42.42`, whose right operand is
floating-point, gives false by `isFloatCompare_spec`. -/
theorem isFloatCompare_spec_witness :
    token.Token.EQL ≠ token.Token.NEQ
      ∧ isFloatCompare examples.pass examples.resultEql token.Token.NEQ = false :=
  ⟨by decide,
    (isFloatCompare_spec examples.pass examples.resultEql token.Token.NEQ).2.2
      _ _ _ _ rfl (by decide)⟩

/-! ## The diagnostic -/

/-- Claim C10: every diagnostic `Check` returns carries the rule identifier
"float-compare", the value of `FloatCompare.Name`, is anchored at the range of
the input call descriptor, and carries no suggested fix; and a call descriptor
has at most one diagnostic. -/
theorem Check_diagnostic_shape (checker : FloatCompare) (pass : analysis.Pass)
    (call : CallMeta) (d : analysis.Diagnostic)
    (h : checker.Check pass call = .ok (some d)) :
    d.Category = "float-compare"
      ∧ d.Category = checker.Name
      ∧ d.Pos = call.Range.Pos
      ∧ d.End = call.Range.End
      ∧ d.SuggestedFixes = []
      ∧ (∀ d2, checker.Check pass call = .ok (some d2) → d2 = d) := by
  have hd := Check_some_eq checker pass call d h
  refine ⟨?_, ?_, ?_, ?_, ?_, ?_⟩
  · rw [hd]; rfl
  · rw [hd]; rfl
  · rw [hd]; rfl
  · rw [hd]; rfl
  · rw [hd]; rfl
  · intro d2 h2
    rw [hd, Check_some_eq checker pass call d2 h2]

/-- The call `assert.Equal(t, 42.42, result)` returns a diagnostic, which has
the shape `Check_diagnostic_shape` gives. -/
theorem Check_diagnostic_shape_witness :
    NewFloatCompare.Check examples.pass examples.equalFloat
        = .ok (some ⟨10, 40, "float-compare", "use assert.InEpsilon (or InDelta)", []⟩)
      ∧ (10 : token.Pos) = examples.equalFloat.Range.Pos
      ∧ (40 : token.Pos) = examples.equalFloat.Range.End :=
  ⟨rfl,
    (Check_diagnostic_shape NewFloatCompare examples.pass examples.equalFloat
      ⟨10, 40, "float-compare", "use assert.InEpsilon (or InDelta)", []⟩ rfl).2.2.1,
    (Check_diagnostic_shape NewFloatCompare examples.pass examples.equalFloat
      ⟨10, 40, "float-compare", "use assert.InEpsilon (or InDelta)", []⟩ rfl).2.2.2.1⟩

/-! ## Purity, duality and symmetry -/

theorem CheckStep_eq (checker : FloatCompare) (s : Store) (r : Option analysis.Diagnostic)
    (h : checker.Check s.pass s.call = .ok r) : checker.CheckStep s = .ok (r, s) := by
  rcases invalid_cases s.pass s.call with h0 | ⟨h1, _⟩
  · rw [Check_of_invalid checker s.pass s.call false h0] at h
    unfold FloatCompare.CheckStep
    rw [h0]
    cases h
    rfl
  · rw [Check_of_invalid checker s.pass s.call true h1] at h
    unfold FloatCompare.CheckStep
    rw [h1]
    cases h
    rfl

theorem Check_total (checker : FloatCompare) (pass : analysis.Pass) (call : CallMeta) :
    ∃ r, checker.Check pass call = .ok r := by
  rcases invalid_cases pass call with h0 | ⟨h1, _⟩
  · exact ⟨_, Check_of_invalid checker pass call false h0⟩
  · exact ⟨_, Check_of_invalid checker pass call true h1⟩

/-- Claim C11: `Check` is deterministic and changes nothing: on every call
descriptor and every type environment it returns a result and leaves
descriptor and environment as they were, and a second invocation on what the
first one left returns the same result (both none, or both the same
diagnostic) and again leaves them unchanged. -/
theorem Check_idempotent (checker : FloatCompare) (s : Store) :
    ∃ r, checker.Check s.pass s.call = .ok r
      ∧ checker.CheckStep s = .ok (r, s)
      ∧ checker.CheckTwice s = .ok (r, r, s) := by
  obtain ⟨r, hr⟩ := Check_total checker s.pass s.call
  have hstep := CheckStep_eq checker s r hr
  refine ⟨r, hr, hstep, ?_⟩
  unfold FloatCompare.CheckTwice
  rw [hstep]
  show (checker.CheckStep s >>= fun r2 => pure (r, r2.1, r2.2)) = _
  rw [hstep]
  rfl

/-- Claim C12: for all operand expressions x and y, `Check` flags a True call
on the comparison `x == y` if and only if it flags a False call on the
comparison `x != y`; a True call on `x != y` and a False call on `x == y` are
never flagged, whatever the operand types. -/
theorem Check_polarity_duality (checker : FloatCompare) (pass : analysis.Pass)
    (callT callF : CallMeta) (x y : ast.Expr) (pT pF : token.Pos)
    (restT restF : List ast.Expr)
    (hT : callT.Fn.NameFTrimmed = "True") (hF : callF.Fn.NameFTrimmed = "False") :
    (callT.Args = ast.Expr.BinaryExpr x pT token.Token.EQL y :: restT →
      callF.Args = ast.Expr.BinaryExpr x pF token.Token.NEQ y :: restF →
        ((∃ d, checker.Check pass callT = .ok (some d))
          ↔ (∃ d, checker.Check pass callF = .ok (some d))))
      ∧ (callT.Args = ast.Expr.BinaryExpr x pT token.Token.NEQ y :: restT →
          checker.Check pass callT = .ok none)
      ∧ (callF.Args = ast.Expr.BinaryExpr x pF token.Token.EQL y :: restF →
          checker.Check pass callF = .ok none) := by
  refine ⟨?_, ?_, ?_⟩
  · intro hAT hAF
    rw [(Check_some_iff checker pass callT _ (invalid_True pass callT _ restT hT hAT)).1,
      (Check_some_iff checker pass callF _ (invalid_False pass callF _ restF hF hAF)).1]
    simp [isFloatCompare]
  · intro hAT
    exact (Check_some_iff checker pass callT _ (invalid_True pass callT _ restT hT hAT)).2.2
      (by simp [isFloatCompare])
  · intro hAF
    exact (Check_some_iff checker pass callF _ (invalid_False pass callF _ restF hF hAF)).2.2
      (by simp [isFloatCompare])

/-- The calls `assert.True(t, result == 42.42)` and
`assert.False(t, result != 42.42)` satisfy the hypotheses of
`Check_polarity_duality`, and both are flagged. -/
theorem Check_polarity_duality_witness :
    examples.trueEql.Fn.NameFTrimmed = "True"
      ∧ examples.falseNeq.Fn.NameFTrimmed = "False"
      ∧ (∃ d, NewFloatCompare.Check examples.pass examples.trueEql = .ok (some d))
      ∧ (∃ d, NewFloatCompare.Check examples.pass examples.falseNeq = .ok (some d)) :=
  ⟨rfl, rfl, ⟨_, rfl⟩,
    ((Check_polarity_duality NewFloatCompare examples.pass examples.trueEql examples.falseNeq
      (.Ident 14 "result") (.BasicLit 24 .FLOAT "42.42") 21 21 [] [] rfl rfl).1 rfl rfl).mp
      ⟨_, rfl⟩⟩

theorem Check_congr (checker : FloatCompare) (pass : analysis.Pass) (call1 call2 : CallMeta)
    (b : Bool) (h1 : FloatCompare.invalid pass call1 = .ok b)
    (h2 : FloatCompare.invalid pass call2 = .ok b)
    (hd : checker.diagnostic call1 = checker.diagnostic call2) :
    checker.Check pass call1 = checker.Check pass call2 := by
  rw [Check_of_invalid checker pass call1 b h1, Check_of_invalid checker pass call2 b h2, hd]

/-- Claim C13: for an Equal, EqualValues or Exactly call with at least two
arguments, swapping argument 0 and argument 1 changes neither whether a
diagnostic is returned nor the diagnostic; for a True or False call, swapping
the two operands of the binary expression in argument 0 does not change the
result either. -/
theorem Check_symmetric (checker : FloatCompare) (pass : analysis.Pass) (call : CallMeta) :
    (∀ a0 a1 rest,
        (call.Fn.NameFTrimmed = "Equal" ∨ call.Fn.NameFTrimmed = "EqualValues"
          ∨ call.Fn.NameFTrimmed = "Exactly") →
        call.Args = a0 :: a1 :: rest →
        checker.Check pass { call with Args := a1 :: a0 :: rest } = checker.Check pass call)
      ∧ (∀ X OpPos Op Y rest,
        (call.Fn.NameFTrimmed = "True" ∨ call.Fn.NameFTrimmed = "False") →
        call.Args = ast.Expr.BinaryExpr X OpPos Op Y :: rest →
        checker.Check pass { call with Args := ast.Expr.BinaryExpr Y OpPos Op X :: rest }
          = checker.Check pass call) := by
  refine ⟨?_, ?_⟩
  · intro a0 a1 rest hname hargs
    refine Check_congr checker pass _ call (isFloat pass a0 || isFloat pass a1) ?_
      (invalid_equal_family pass call a0 a1 rest hname hargs) rfl
    rw [invalid_equal_family pass { call with Args := a1 :: a0 :: rest } a1 a0 rest hname rfl,
      Bool.or_comm]
  · intro X OpPos Op Y rest hname hargs
    rcases hname with hname | hname
    · refine Check_congr checker pass _ call _ ?_
        (invalid_True pass call _ rest hname hargs) rfl
      rw [invalid_True pass { call with Args := ast.Expr.BinaryExpr Y OpPos Op X :: rest }
        _ rest hname rfl]
      simp [isFloatCompare, Bool.or_comm]
    · refine Check_congr checker pass _ call _ ?_
        (invalid_False pass call _ rest hname hargs) rfl
      rw [invalid_False pass { call with Args := ast.Expr.BinaryExpr Y OpPos Op X :: rest }
        _ rest hname rfl]
      simp [isFloatCompare, Bool.or_comm]

/-- The call `assert.Equal(t, 42.42, result)` and the call with the two
arguments swapped return the same diagnostic, by `Check_symmetric`. -/
theorem Check_symmetric_witness :
    examples.equalFloat.Fn.NameFTrimmed = "Equal"
      ∧ examples.equalFloat.Args = examples.lit4242 :: examples.result :: []
      ∧ NewFloatCompare.Check examples.pass examples.equalFloatSwapped
          = NewFloatCompare.Check examples.pass examples.equalFloat
      ∧ NewFloatCompare.Check examples.pass examples.equalFloat
          = .ok (some ⟨10, 40, "float-compare", "use assert.InEpsilon (or InDelta)", []⟩) :=
  ⟨rfl, rfl,
    (Check_symmetric NewFloatCompare examples.pass examples.equalFloat).1
      examples.lit4242 examples.result [] (Or.inl rfl) rfl,
    rfl⟩

/-! ## What the result depends on -/

theorem invalid_congr (pass : analysis.Pass) (call1 call2 : CallMeta)
    (hname : call2.Fn.NameFTrimmed = call1.Fn.NameFTrimmed) (hargs : call2.Args = call1.Args) :
    FloatCompare.invalid pass call2 = FloatCompare.invalid pass call1 := by
  unfold FloatCompare.invalid
  rw [hname, hargs]

theorem diagnostic_Message (checker : FloatCompare) (call : CallMeta) :
    (checker.diagnostic call).Message
      = fmt.Sprintf (if call.Fn.IsFmt then "use %s.InEpsilonf (or InDeltaf)"
          else "use %s.InEpsilon (or InDelta)") [call.SelectorXStr] := rfl

theorem diagnostic_Message_congr (checker : FloatCompare) (call1 call2 : CallMeta)
    (hsel : call2.SelectorXStr = call1.SelectorXStr) (hfmt : call2.Fn.IsFmt = call1.Fn.IsFmt) :
    (checker.diagnostic call2).Message = (checker.diagnostic call1).Message := by
  rw [diagnostic_Message, diagnostic_Message, hsel, hfmt]

theorem diagnostic_congr (checker : FloatCompare) (call1 call2 : CallMeta)
    (hsel : call2.SelectorXStr = call1.SelectorXStr) (hfmt : call2.Fn.IsFmt = call1.Fn.IsFmt)
    (hrng : call2.Range = call1.Range) :
    checker.diagnostic call2 = checker.diagnostic call1 := by
  unfold FloatCompare.diagnostic newDiagnostic FloatCompare.format
  rw [hsel, hfmt, hrng]

/-- Claim C14: only the leading arguments are examined. Two Equal, EqualValues
or Exactly descriptors that agree on trimmed function name, selector text,
formatting flag and their first two arguments are flagged alike, with the same
rule name, message and fixes, whatever further arguments follow, and they have
the same result when they have the same source range; two True or False
descriptors that differ only in the arguments after the first have the same
result. -/
theorem Check_leading_args_only (checker : FloatCompare) (pass : analysis.Pass)
    (call1 call2 : CallMeta) :
    (∀ a0 a1 rest1 rest2,
        (call1.Fn.NameFTrimmed = "Equal" ∨ call1.Fn.NameFTrimmed = "EqualValues"
          ∨ call1.Fn.NameFTrimmed = "Exactly") →
        call2.Fn.NameFTrimmed = call1.Fn.NameFTrimmed →
        call2.SelectorXStr = call1.SelectorXStr →
        call2.Fn.IsFmt = call1.Fn.IsFmt →
        call1.Args = a0 :: a1 :: rest1 →
        call2.Args = a0 :: a1 :: rest2 →
        ((∃ d, checker.Check pass call1 = .ok (some d))
            ↔ (∃ d, checker.Check pass call2 = .ok (some d)))
          ∧ (checker.Check pass call1 = .ok none ↔ checker.Check pass call2 = .ok none)
          ∧ (∀ d1 d2, checker.Check pass call1 = .ok (some d1) →
              checker.Check pass call2 = .ok (some d2) →
              d1.Category = d2.Category ∧ d1.Message = d2.Message
                ∧ d1.SuggestedFixes = d2.SuggestedFixes)
          ∧ (call2.Range = call1.Range →
              checker.Check pass call2 = checker.Check pass call1))
      ∧ (∀ a0 rest1 rest2,
        (call1.Fn.NameFTrimmed = "True" ∨ call1.Fn.NameFTrimmed = "False") →
        call1.Args = a0 :: rest1 →
        call2 = { call1 with Args := a0 :: rest2 } →
        checker.Check pass call2 = checker.Check pass call1) := by
  refine ⟨?_, ?_⟩
  · intro a0 a1 rest1 rest2 hname hn hsel hfmt hA1 hA2
    have hi1 := invalid_equal_family pass call1 a0 a1 rest1 hname hA1
    have hi2 := invalid_equal_family pass call2 a0 a1 rest2 (by rw [hn]; exact hname) hA2
    have hc1 := Check_some_iff checker pass call1 _ hi1
    have hc2 := Check_some_iff checker pass call2 _ hi2
    refine ⟨hc1.1.trans hc2.1.symm, hc1.2.trans hc2.2.symm, ?_, ?_⟩
    · intro d1 d2 h1 h2
      rw [Check_some_eq checker pass call1 d1 h1, Check_some_eq checker pass call2 d2 h2]
      exact ⟨rfl, (diagnostic_Message_congr checker call1 call2 hsel hfmt).symm, rfl⟩
    · intro hrng
      exact Check_congr checker pass call2 call1 _ hi2 hi1
        (diagnostic_congr checker call1 call2 hsel hfmt hrng)
  · intro a0 rest1 rest2 hname hA1 h2
    subst h2
    rcases hname with hname | hname
    · exact Check_congr checker pass _ call1 _
        (invalid_True pass { call1 with Args := a0 :: rest2 } a0 rest2 hname rfl)
        (invalid_True pass call1 a0 rest1 hname hA1) rfl
    · exact Check_congr checker pass _ call1 _
        (invalid_False pass { call1 with Args := a0 :: rest2 } a0 rest2 hname rfl)
        (invalid_False pass call1 a0 rest1 hname hA1) rfl

/-- The calls `assert.Equal(t, 42.42, result)` and
`assert.Equal(t, 42.42, result, 0.5)` agree as `Check_leading_args_only`
requires, and both are flagged with the same message. -/
theorem Check_leading_args_only_witness :
    examples.equalFloat.Fn.NameFTrimmed = "Equal"
      ∧ examples.equalFloat.Args = examples.lit4242 :: examples.result :: []
      ∧ examples.equalFloatExtra.Args
          = examples.lit4242 :: examples.result :: [.BasicLit 41 .FLOAT "0.5"]
      ∧ ((∃ d, NewFloatCompare.Check examples.pass examples.equalFloat = .ok (some d))
          ↔ (∃ d, NewFloatCompare.Check examples.pass examples.equalFloatExtra = .ok (some d)))
      ∧ (NewFloatCompare.diagnostic examples.equalFloat).Message
          = (NewFloatCompare.diagnostic examples.equalFloatExtra).Message :=
  ⟨rfl, rfl, rfl,
    ((Check_leading_args_only NewFloatCompare examples.pass examples.equalFloat
      examples.equalFloatExtra).1 examples.lit4242 examples.result []
      [.BasicLit 41 .FLOAT "0.5"] (Or.inl rfl) rfl rfl rfl rfl rfl).1,
    (((Check_leading_args_only NewFloatCompare examples.pass examples.equalFloat
      examples.equalFloatExtra).1 examples.lit4242 examples.result []
      [.BasicLit 41 .FLOAT "0.5"] (Or.inl rfl) rfl rfl rfl rfl rfl).2.2.1
      _ _ rfl rfl).2.1⟩

/-- Claim C15: `Check` is total: for every function name and every argument
list, the empty and the one-element list included, every index into `Args` is
in bounds where it is evaluated, so `Check` (and its closure `invalid`) never
fails and returns either a diagnostic or none. -/
theorem Check_never_fails (checker : FloatCompare) (pass : analysis.Pass) (call : CallMeta) :
    (∃ b, FloatCompare.invalid pass call = .ok b)
      ∧ (checker.Check pass call = .ok none ∨ ∃ d, checker.Check pass call = .ok (some d))
      ∧ (∀ p, checker.Check pass call ≠ .error p) := by
  obtain ⟨r, hr⟩ := Check_total checker pass call
  refine ⟨?_, ?_, ?_⟩
  · rcases invalid_cases pass call with h0 | ⟨h1, _⟩
    · exact ⟨false, h0⟩
    · exact ⟨true, h1⟩
  · cases r with
    | none => exact Or.inl hr
    | some d => exact Or.inr ⟨d, hr⟩
  · intro p hp
    rw [hr] at hp
    cases hp

/-- Claim C16: `isFloatCompare` looks at the top node only: for a True or False
call whose argument 0 is a parenthesised expression, a negation, or a logical
conjunction, `Check` returns no diagnostic, whatever the sub-expressions are
and whatever their types, so also when a floating-point equality is among
them. -/
theorem Check_top_level_only (checker : FloatCompare) (pass : analysis.Pass) (call : CallMeta)
    (a0 : ast.Expr) (rest : List ast.Expr)
    (hname : call.Fn.NameFTrimmed = "True" ∨ call.Fn.NameFTrimmed = "False")
    (hargs : call.Args = a0 :: rest)
    (hshape : (∃ l inner r, a0 = ast.Expr.ParenExpr l inner r)
      ∨ (∃ p inner, a0 = ast.Expr.UnaryExpr p token.Token.NOT inner)
      ∨ (∃ inner p b, a0 = ast.Expr.BinaryExpr inner p token.Token.LAND b)) :
    checker.Check pass call = .ok none := by
  have hcmp : ∀ op, op = token.Token.EQL ∨ op = token.Token.NEQ →
      isFloatCompare pass a0 op = false := by
    intro op hop
    rcases hshape with ⟨l, inner, r, rfl⟩ | ⟨p, inner, rfl⟩ | ⟨inner, p, b, rfl⟩
    · rfl
    · rfl
    · rcases hop with rfl | rfl <;> simp [isFloatCompare]
  rcases hname with hname | hname
  · exact (Check_some_iff checker pass call _ (invalid_True pass call a0 rest hname hargs)).2.2
      (hcmp _ (Or.inl rfl))
  · exact (Check_some_iff checker pass call _ (invalid_False pass call a0 rest hname hargs)).2.2
      (hcmp _ (Or.inr rfl))

/-- The call `assert.True(t, (result == 42.42))`, whose parenthesised
comparison has a floating-point operand, satisfies the hypotheses of
`Check_top_level_only`. -/
theorem Check_top_level_only_witness :
    examples.trueParen.Fn.NameFTrimmed = "True"
      ∧ examples.trueParen.Args = examples.parenEql :: []
      ∧ examples.parenEql = ast.Expr.ParenExpr 13 examples.resultEql 30
      ∧ isFloatCompare examples.pass examples.resultEql token.Token.EQL = true
      ∧ NewFloatCompare.Check examples.pass examples.trueParen = .ok none :=
  ⟨rfl, rfl, rfl, by decide,
    Check_top_level_only NewFloatCompare examples.pass examples.trueParen examples.parenEql []
      (Or.inl rfl) rfl (Or.inl ⟨13, examples.resultEql, 30, rfl⟩)⟩

/-- Claim C17: whether a diagnostic is returned depends neither on the selector
text nor on the formatting flag: two descriptors that agree on trimmed function
name and arguments are flagged alike under the same type environment, and
their diagnostics agree in rule name and fixes, and in anchor when the ranges
agree, so that only the message can differ. -/
theorem Check_selector_independent (checker : FloatCompare) (pass : analysis.Pass)
    (call1 call2 : CallMeta)
    (hname : call2.Fn.NameFTrimmed = call1.Fn.NameFTrimmed)
    (hargs : call2.Args = call1.Args) :
    ((∃ d, checker.Check pass call1 = .ok (some d))
        ↔ (∃ d, checker.Check pass call2 = .ok (some d)))
      ∧ (checker.Check pass call1 = .ok none ↔ checker.Check pass call2 = .ok none)
      ∧ (∀ d1 d2, checker.Check pass call1 = .ok (some d1) →
          checker.Check pass call2 = .ok (some d2) →
          d1.Category = d2.Category ∧ d1.SuggestedFixes = d2.SuggestedFixes
            ∧ (call2.Range = call1.Range → d1.Pos = d2.Pos ∧ d1.End = d2.End)) := by
  have hi := invalid_congr pass call1 call2 hname hargs
  have hb : ∃ b, FloatCompare.invalid pass call1 = .ok b := by
    rcases invalid_cases pass call1 with h0 | ⟨h1, _⟩
    · exact ⟨false, h0⟩
    · exact ⟨true, h1⟩
  obtain ⟨b, hb1⟩ := hb
  have hb2 : FloatCompare.invalid pass call2 = .ok b := by rw [hi, hb1]
  have hc1 := Check_some_iff checker pass call1 b hb1
  have hc2 := Check_some_iff checker pass call2 b hb2
  refine ⟨hc1.1.trans hc2.1.symm, hc1.2.trans hc2.2.symm, ?_⟩
  intro d1 d2 h1 h2
  rw [Check_some_eq checker pass call1 d1 h1, Check_some_eq checker pass call2 d2 h2]
  refine ⟨rfl, rfl, ?_⟩
  intro hrng
  unfold FloatCompare.diagnostic newDiagnostic
  rw [hrng]
  exact ⟨rfl, rfl⟩

/-- The calls `assert.Equal(t, 42.42, result)` and
`require.Equalf(t, 42.42, result)` satisfy the hypotheses of
`Check_selector_independent`; both are flagged, with different messages. -/
theorem Check_selector_independent_witness :
    examples.requireEqualfSame.Fn.NameFTrimmed = examples.equalFloat.Fn.NameFTrimmed
      ∧ examples.requireEqualfSame.Args = examples.equalFloat.Args
      ∧ ((∃ d, NewFloatCompare.Check examples.pass examples.equalFloat = .ok (some d))
          ↔ (∃ d, NewFloatCompare.Check examples.pass examples.requireEqualfSame
              = .ok (some d)))
      ∧ NewFloatCompare.Check examples.pass examples.requireEqualfSame
          = .ok (some ⟨10, 40, "float-compare", "use require.InEpsilonf (or InDeltaf)", []⟩) :=
  ⟨rfl, rfl,
    (Check_selector_independent NewFloatCompare examples.pass examples.equalFloat
      examples.requireEqualfSame rfl rfl).1,
    rfl⟩

/-! ## Types that are not floating-point -/

theorem flag_not_float (k : types.BasicKind)
    (h : k.Info &&& types.IsInteger > 0 ∨ k.Info &&& types.IsComplex > 0
      ∨ k.Info &&& types.IsString > 0 ∨ k.Info &&& types.IsBoolean > 0) :
    decide (k.Info &&& types.IsFloat > 0) = false := by
  cases k <;> first | rfl | (exfalso; revert h; decide)

theorem isFloat_false_of_class (pass : analysis.Pass) (e : ast.Expr) (t : types.GoType)
    (hT : pass.TypesInfo.TypeOf e = some t)
    (h : (∃ k, t.Underlying = types.GoType.Basic k
          ∧ (k.Info &&& types.IsInteger > 0 ∨ k.Info &&& types.IsComplex > 0
            ∨ k.Info &&& types.IsString > 0 ∨ k.Info &&& types.IsBoolean > 0))
        ∨ (∀ k, t.Underlying ≠ types.GoType.Basic k)) :
    isFloat pass e = false := by
  rcases h with ⟨k, hU, hk⟩ | hnb
  · rw [isFloat_of_basic pass e t k hT hU]
    exact flag_not_float k hk
  · exact isFloat_of_not_basic pass e t hT hnb

/-- Claim C18: `isFloat` matches the floating-point flag only: it is false for
every expression whose underlying type is a basic kind flagged integer,
complex, string or boolean (complex64, complex128 and untyped complex among
them) and for every expression whose underlying type is not basic, such as a
pointer to float64 or an interface; so an Equal, EqualValues or Exactly call
whose first two arguments have such types returns no diagnostic. -/
theorem isFloat_only_float_flag (checker : FloatCompare) (pass : analysis.Pass)
    (call : CallMeta) (a0 a1 : ast.Expr) (rest : List ast.Expr) (t0 t1 : types.GoType)
    (hname : call.Fn.NameFTrimmed = "Equal" ∨ call.Fn.NameFTrimmed = "EqualValues"
      ∨ call.Fn.NameFTrimmed = "Exactly")
    (hargs : call.Args = a0 :: a1 :: rest)
    (hT0 : pass.TypesInfo.TypeOf a0 = some t0)
    (hT1 : pass.TypesInfo.TypeOf a1 = some t1)
    (h0 : (∃ k, t0.Underlying = types.GoType.Basic k
          ∧ (k.Info &&& types.IsInteger > 0 ∨ k.Info &&& types.IsComplex > 0
            ∨ k.Info &&& types.IsString > 0 ∨ k.Info &&& types.IsBoolean > 0))
        ∨ (∀ k, t0.Underlying ≠ types.GoType.Basic k))
    (h1 : (∃ k, t1.Underlying = types.GoType.Basic k
          ∧ (k.Info &&& types.IsInteger > 0 ∨ k.Info &&& types.IsComplex > 0
            ∨ k.Info &&& types.IsString > 0 ∨ k.Info &&& types.IsBoolean > 0))
        ∨ (∀ k, t1.Underlying ≠ types.GoType.Basic k)) :
    isFloat pass a0 = false
      ∧ isFloat pass a1 = false
      ∧ checker.Check pass call = .ok none
      ∧ (∀ e k, pass.TypesInfo.TypeOf e = some (types.GoType.Basic k) →
          (k = types.BasicKind.Complex64 ∨ k = types.BasicKind.Complex128
            ∨ k = types.BasicKind.UntypedComplex) → isFloat pass e = false)
      ∧ (∀ e, pass.TypesInfo.TypeOf e
            = some (types.GoType.Pointer (types.GoType.Basic types.BasicKind.Float64)) →
          isFloat pass e = false)
      ∧ (∀ e id, pass.TypesInfo.TypeOf e = some (types.GoType.Interface id) →
          isFloat pass e = false) := by
  have hf0 := isFloat_false_of_class pass a0 t0 hT0 h0
  have hf1 := isFloat_false_of_class pass a1 t1 hT1 h1
  refine ⟨hf0, hf1, ?_, ?_, ?_, ?_⟩
  · refine (Check_some_iff checker pass call _
      (invalid_equal_family pass call a0 a1 rest hname hargs)).2.2 ?_
    rw [hf0, hf1]
    rfl
  · intro e k hT hk
    rw [isFloat_of_basic pass e _ k hT rfl]
    rcases hk with rfl | rfl | rfl <;> rfl
  · intro e hT
    exact isFloat_of_not_basic pass e _ hT (fun k hk => by cases hk)
  · intro e id hT
    exact isFloat_of_not_basic pass e _ hT (fun k hk => by cases hk)

/-- The call `assert.Equal(t, ptr, z)`, with `ptr` a `*float64` and `z` a
`complex128`, satisfies the hypotheses of `isFloat_only_float_flag`. -/
theorem isFloat_only_float_flag_witness :
    examples.equalPtrComplex.Fn.NameFTrimmed = "Equal"
      ∧ examples.equalPtrComplex.Args = examples.ptr :: examples.z :: []
      ∧ examples.passNonFloat.TypesInfo.TypeOf examples.ptr
          = some (types.GoType.Pointer (types.GoType.Basic types.BasicKind.Float64))
      ∧ examples.passNonFloat.TypesInfo.TypeOf examples.z
          = some (types.GoType.Basic types.BasicKind.Complex128)
      ∧ NewFloatCompare.Check examples.passNonFloat examples.equalPtrComplex = .ok none :=
  ⟨rfl, rfl, rfl, rfl,
    (isFloat_only_float_flag NewFloatCompare examples.passNonFloat examples.equalPtrComplex
      examples.ptr examples.z [] _ _ (Or.inl rfl) rfl rfl rfl
      (Or.inr (fun k hk => by cases hk))
      (Or.inl ⟨types.BasicKind.Complex128, rfl, Or.inr (Or.inl (by decide))⟩)).2.2.1⟩
